import Mathlib

/-!
Verification of the regulatory-impact analysis pipeline
(`regulatory_impact_analyzer`): the LLM gateway retry loop, the JSON
response cleaning/parsing step, the structure normalizer, the
score-to-recommendation and score-to-sentiment bucket maps, the
document validation gate, the document-format dispatcher, the bounded
worker-pool semantics, and the batch failure-isolation behaviour.

Python mutable state is embedded as explicit state passing; Python
exceptions are embedded as `Option`/`Except`; Python dicts are embedded
as association lists; Python floats are embedded as rationals.
-/

namespace RegImpact

/-! ## JSON values

Model of the Python JSON data produced by `json.loads`: Python dicts
become association lists in document order, numbers become rationals. -/

inductive Json where
  | null : Json
  | bool (b : Bool) : Json
  | num (q : ℚ) : Json
  | str (s : String) : Json
  | arr (xs : List Json) : Json
  | obj (fs : List (String × Json)) : Json

/-- Lookup in a decoded Python dict (association list), first binding wins,
as `dict` lookup on insertion-ordered keys. -/
def dget (d : List (String × Json)) (k : String) : Option Json :=
  match d.find? (fun p => p.1 == k) with
  | some p => some p.2
  | none => none

/-- Python `d.get(k, default)`. -/
def dgetD (d : List (String × Json)) (k : String) (v : Json) : Json :=
  match dget d k with
  | some j => j
  | none => v

/-- Python `j.get(k)` on a value expected to be a dict: `none` models the
`None` result for an absent key (non-dict receivers, which would raise in
Python, are outside the modelled domain and also give `none`). -/
def jget (j : Json) (k : String) : Option Json :=
  match j with
  | .obj fs => dget fs k
  | _ => none

/-- Keys of a decoded dict, in order (Python `d.keys()`). -/
def jkeys (j : Json) : List String :=
  match j with
  | .obj fs => fs.map (fun p => p.1)
  | _ => []

/-- Python `None` injected into the JSON model when a `.get` miss is stored
back into a dict. -/
def optJson (o : Option Json) : Json :=
  match o with
  | some j => j
  | none => .null

/-! ## A strict JSON decoder

Model of the external collaborator `json.loads` (Python standard
library, strict JSON decoding, no repair): a recursive-descent parser
over the character list, fuelled for termination.  It covers the JSON
fragment exercised by this repository's responses: objects, arrays,
double-quoted strings with the standard single-character escapes,
integer/decimal numbers, `true`/`false`/`null`.  `none` models
`json.JSONDecodeError`. -/

def lbrace : Char := Char.ofNat 123

def rbrace : Char := Char.ofNat 125

def isWsChar (c : Char) : Bool :=
  c == ' ' || c == '\n' || c == '\t' || c == '\r'

def skipWs (cs : List Char) : List Char :=
  match cs with
  | [] => []
  | c :: rest => if isWsChar c then skipWs rest else cs

def digitVal (c : Char) : Option Nat :=
  if c.isDigit then some (c.toNat - 48) else none

def parseDigits (cs : List Char) (acc : Nat) (seen : Bool) :
    Option (Nat × Nat × List Char) :=
  match cs with
  | [] => if seen then some (acc, 0, []) else none
  | c :: rest =>
    match digitVal c with
    | some d =>
      match parseDigits rest (acc * 10 + d) true with
      | some (v, n, rem) => some (v, n + 1, rem)
      | none => none
    | none => if seen then some (acc, 0, cs) else none

def parseNum (cs : List Char) : Option (ℚ × List Char) :=
  let (neg, cs) :=
    match cs with
    | c :: rest => if c == '-' then (true, rest) else (false, cs)
    | [] => (false, cs)
  match parseDigits cs 0 false with
  | none => none
  | some (ip, _, rest) =>
    let (q, rest) :=
      match rest with
      | c :: rest2 =>
        if c == '.' then
          match parseDigits rest2 0 false with
          | some (fp, n, rest3) => (((ip : ℚ) + (fp : ℚ) / ((10 : ℚ) ^ n)), rest3)
          | none => ((ip : ℚ), rest)
        else ((ip : ℚ), rest)
      | [] => ((ip : ℚ), rest)
    some (if neg then -q else q, rest)

def unescape (c : Char) : Option Char :=
  if c == '"' || c == '\\' || c == '/' then some c
  else if c == 'n' then some '\n'
  else if c == 't' then some '\t'
  else if c == 'r' then some '\r'
  else none

def parseStringBody (cs : List Char) (acc : List Char) :
    Option (String × List Char) :=
  match cs with
  | [] => none
  | c :: rest =>
    if c == '"' then some (String.mk acc.reverse, rest)
    else if c == '\\' then
      match rest with
      | [] => none
      | e :: rest2 =>
        match unescape e with
        | some u => parseStringBody rest2 (u :: acc)
        | none => none
    else parseStringBody rest (c :: acc)

mutual

def parseVal (fuel : Nat) (cs : List Char) : Option (Json × List Char) :=
  match fuel with
  | 0 => none
  | fuel + 1 =>
    match skipWs cs with
    | [] => none
    | c :: rest =>
      if c == lbrace then parseObj fuel rest true []
      else if c == '[' then parseArr fuel rest true []
      else if c == '"' then
        match parseStringBody rest [] with
        | some (s, rem) => some (.str s, rem)
        | none => none
      else if c == 't' then
        match rest with
        | 'r' :: 'u' :: 'e' :: rem => some (.bool true, rem)
        | _ => none
      else if c == 'f' then
        match rest with
        | 'a' :: 'l' :: 's' :: 'e' :: rem => some (.bool false, rem)
        | _ => none
      else if c == 'n' then
        match rest with
        | 'u' :: 'l' :: 'l' :: rem => some (.null, rem)
        | _ => none
      else
        match parseNum (c :: rest) with
        | some (q, rem) => some (.num q, rem)
        | none => none

/-- Parse the fields of an object; `cs` is positioned just after the opening
brace (when `first`) or just after a separating comma (otherwise). -/
def parseObj (fuel : Nat) (cs : List Char) (first : Bool)
    (acc : List (String × Json)) : Option (Json × List Char) :=
  match fuel with
  | 0 => none
  | fuel + 1 =>
    match skipWs cs with
    | [] => none
    | c :: rest =>
      if first && c == rbrace then some (.obj acc, rest)
      else if c == '"' then
        match parseStringBody rest [] with
        | some (k, rem) =>
          match skipWs rem with
          | ':' :: rem2 =>
            match parseVal fuel rem2 with
            | some (v, rem3) =>
              match skipWs rem3 with
              | c2 :: rem4 =>
                if c2 == rbrace then some (.obj (acc ++ [(k, v)]), rem4)
                else if c2 == ',' then parseObj fuel rem4 false (acc ++ [(k, v)])
                else none
              | [] => none
            | none => none
          | _ => none
        | none => none
      else none

/-- Parse the items of an array; `cs` is positioned just after the opening
bracket (when `first`) or just after a separating comma (otherwise). -/
def parseArr (fuel : Nat) (cs : List Char) (first : Bool)
    (acc : List Json) : Option (Json × List Char) :=
  match fuel with
  | 0 => none
  | fuel + 1 =>
    match skipWs cs with
    | [] => none
    | c :: rest =>
      if first && c == ']' then some (.arr acc, rest)
      else
        match parseVal fuel (c :: rest) with
        | some (v, rem) =>
          match skipWs rem with
          | c2 :: rem2 =>
            if c2 == ']' then some (.arr (acc ++ [v]), rem2)
            else if c2 == ',' then parseArr fuel rem2 false (acc ++ [v])
            else none
          | [] => none
        | none => none

end

/-- Model of `json.loads`: strict decode of the whole string, `none` on
any decode failure. -/
def jsonDecode (s : String) : Option Json :=
  match parseVal (s.length + 1) s.data with
  | some (j, rest) => if skipWs rest == [] then some j else none
  | none => none

/-! ## Python string primitives

Models of the Python string operations used by the pipeline, written
as structural recursion over the character list so that they evaluate
inside the kernel. -/

/-- Python `str.strip()` (leading and trailing whitespace removed). -/
def pyStrip (s : String) : String :=
  String.mk ((((s.data.dropWhile isWsChar).reverse).dropWhile isWsChar).reverse)

/-- Python `str.startswith(pre)`. -/
def pyStartsWith (s pre : String) : Bool :=
  pre.data.isPrefixOf s.data

/-- Python `str.endswith(suf)`. -/
def pyEndsWith (s suf : String) : Bool :=
  suf.data.reverse.isPrefixOf s.data.reverse

/-- Python slicing `s[n:]`. -/
def pyDrop (s : String) (n : Nat) : String :=
  String.mk (s.data.drop n)

/-- Python slicing `s[:-n]`. -/
def pyDropRight (s : String) (n : Nat) : String :=
  String.mk (s.data.take (s.data.length - n))

def splitCharAux (c : Char) : List Char → List Char → List String
  | [], acc => [String.mk acc.reverse]
  | x :: rest, acc =>
    if x == c then String.mk acc.reverse :: splitCharAux c rest []
    else splitCharAux c rest (x :: acc)

/-- Python `str.split(c)` for a single-character separator. -/
def pySplit (s : String) (c : Char) : List String :=
  splitCharAux c s.data []

/-- Python `', '.join(parts)`. -/
def joinCommaSpace : List String → String
  | [] => ""
  | [x] => x
  | x :: rest => x ++ ", " ++ joinCommaSpace rest

/-! ## Response cleaning

`clean_json_response` from `extraction_mod/extract_10k_v2.py` and the
inline cleaning block of `call_bedrock` in `app/run_analysis.py`
(which uses `if` instead of `elif` for the second prefix test).
Slicing `[7:]`, `[3:]`, `[:-3]` becomes `pyDrop`/`pyDropRight`. -/

def clean_json_response (text : String) : String :=
  let text := pyStrip text
  let text :=
    if pyStartsWith text "```json" then pyDrop text 7
    else if pyStartsWith text "```" then pyDrop text 3
    else text
  let text := if pyEndsWith text "```" then pyDropRight text 3 else text
  pyStrip text

/-- The cleaning block inlined in `call_bedrock` (`app/run_analysis.py`
lines 190-198): two independent `if`s on the prefix, then the suffix. -/
def cleanResponseRA (text : String) : String :=
  let text := pyStrip text
  let text := if pyStartsWith text "```json" then pyDrop text 7 else text
  let text := if pyStartsWith text "```" then pyDrop text 3 else text
  let text := if pyEndsWith text "```" then pyDropRight text 3 else text
  pyStrip text

/-! ## Score-to-recommendation bucket map

`get_overall_recommendation` from `app/run_analysis.py` (lines
333-343).  Scores are Python floats; all thresholds are exactly
representable halves, so the map is embedded over `ℚ`. -/

inductive Rec where
  | SELL | REDUCE | HOLD | BUY | STRONG_BUY
deriving DecidableEq

def get_overall_recommendation (score : ℚ) : Rec :=
  if score ≤ -3/2 then .SELL
  else if score ≤ -1/2 then .REDUCE
  else if score ≤ 1/2 then .HOLD
  else if score ≤ 3/2 then .BUY
  else .STRONG_BUY

/-! ## Score-to-sentiment map

`SENTIMENT_CONFIG` and `get_sentiment_from_score` from
`dashboard/app.py`.  Only the `range` entry of each config record is
relevant to control flow; the configs are listed in dict insertion
order, as Python iterates them. -/

inductive Sentiment where
  | VERY_NEGATIVE | NEGATIVE | NEUTRAL | POSITIVE | VERY_POSITIVE
deriving DecidableEq

/-- The `label`/`color`/`icon` presentation fields are dropped; the
`range` field of each `SENTIMENT_CONFIG` entry, in insertion order. -/
def SENTIMENT_CONFIG : List (Sentiment × ℚ × ℚ) :=
  [(.VERY_NEGATIVE, -3, -3/2),
   (.NEGATIVE, -3/2, -1/2),
   (.NEUTRAL, -1/2, 1/2),
   (.POSITIVE, 1/2, 3/2),
   (.VERY_POSITIVE, 3/2, 3)]

def get_sentiment_from_score (score : ℚ) : Sentiment :=
  match SENTIMENT_CONFIG.find? (fun c => decide (c.2.1 ≤ score) && decide (score < c.2.2)) with
  | some c => c.1
  | none => if score ≥ 3/2 then .VERY_POSITIVE else .VERY_NEGATIVE

/-! ## Document validation gate

`validate_regulatory_document` from `dashboard/regulatory_utils.py`
with the constants of `dashboard/config.py`.  The rejection messages
are f-strings; they are embedded as a reason code. -/

def MIN_DOCUMENT_LENGTH : Nat := 50

def MIN_KEYWORD_MATCHES : Nat := 1

def REGULATORY_KEYWORDS : List String :=
  ["regulation", "law", "policy", "compliance", "directive", "decree",
   "act", "statute", "ordinance", "legislation", "amendment", "requirement",
   "provision", "enactment", "bill",
   "règlement", "loi", "politique", "conformité", "décret", "ordonnance",
   "法", "法律", "法规", "规定", "条例", "政策", "能源法",
   "中华人民共和国", "规章", "办法", "实施", "管理",
   "ley", "reglamento", "decreto",
   "gesetz", "verordnung"]

inductive ValidationReason where
  | tooShort | tooFewKeywords | validated
deriving DecidableEq

/-- `sub` occurs as a contiguous run inside `s` (character lists). -/
def infixAux : List Char → List Char → Bool
  | sub, [] => sub.isEmpty
  | sub, c :: rest => sub.isPrefixOf (c :: rest) || infixAux sub rest

/-- Python `sub in s` substring test. -/
def pySubstr (sub s : String) : Bool :=
  infixAux sub.data s.data

/-- Model of Python `str.lower()`, restricted to ASCII letters (every
non-ASCII keyword in the configured list is already lower-case). -/
def pyLowerChar (c : Char) : Char :=
  if 65 ≤ c.toNat && c.toNat ≤ 90 then Char.ofNat (c.toNat + 32) else c

def pyLower (s : String) : String := String.mk (s.data.map pyLowerChar)

def validate_regulatory_document (text : String) : Bool × ValidationReason :=
  if text = "" ∨ text.data.length < MIN_DOCUMENT_LENGTH then
    (false, .tooShort)
  else if (REGULATORY_KEYWORDS.filter
      (fun kw => pySubstr kw (pyLower text))).length < MIN_KEYWORD_MATCHES then
    (false, .tooFewKeywords)
  else (true, .validated)

/-! ## Structure normalizer

`normalize_structure` from `extraction_mod/extract_10k_v2.py` (lines
269-312).  The input is the decoded flexible extraction dict; the
output mirrors the Python dict literal key-for-key in source order.
A Python `None` stored in the dict is `Json.null`. -/

/-- Python `j.get(k, default)` on a dict-valued `Json`. -/
def jgetD (j : Json) (k : String) (v : Json) : Json :=
  match jget j k with
  | some x => x
  | none => v

def normalize_structure (data : List (String × Json)) : List (String × Json) :=
  let companyInfo := dgetD data "company_info" (.obj [])
  let geoRev := dgetD data "geographic_revenue" (.obj [])
  let keyFin := dgetD data "key_financials" (.obj [])
  let supplyChain := dgetD data "supply_chain" (.obj [])
  [("company_info", companyInfo),
   ("geographic_revenue", geoRev),
   ("business_segments", dgetD data "business_segments" (.obj [])),
   ("key_financials", keyFin),
   ("supply_chain", supplyChain),
   ("metadata", dgetD data "metadata" (.obj [])),
   ("identity_and_jurisdiction", .obj
     [("company_name", optJson (jget companyInfo "name")),
      ("trading_symbol", optJson (jget companyInfo "ticker")),
      ("legal_domicile_country", optJson (jget companyInfo "domicile_country")),
      ("sector_industry", optJson (jget companyInfo "sector"))]),
   ("geographic_exposure", .obj
     [("regions", geoRev),
      ("regions_of_activity", .str (joinCommaSpace (jkeys geoRev)))]),
   ("business_mix", .obj [("segments", dgetD data "business_segments" (.obj []))]),
   ("supply_chain_and_commitments", .obj
     [("suppliers_sector_industries", jgetD supplyChain "major_suppliers_industries" (.arr [])),
      ("key_countries", jgetD supplyChain "key_supplier_countries" (.arr [])),
      ("purchase_obligations_usd", optJson (jget keyFin "purchase_obligations_usd"))]),
   ("tax_and_innovation", .obj
     [("r_and_d_expense_usd", optJson (jget keyFin "r_and_d_expense_usd"))])]

/-- The five legacy fixed-region revenue-share keys read by
`format_company_profile` (`dashboard/regulatory_utils.py`) and
`format_company_info` (`app/run_analysis.py`), paired with their
display region names, in source order. -/
def regionKeyPairs : List (String × String) :=
  [("Americas", "americas_revenue_share_prct_2024"),
   ("Europe", "europe_revenue_share_prct_2024"),
   ("China", "china_revenue_share_prct_2024"),
   ("Japan", "japan_revenue_share_prct_2024"),
   ("Rest of Asia", "restofasia_revenue_share_prct_2024")]

/-- Python truthiness of a JSON value (`if value:`). -/
def jsonTruthy : Json → Bool
  | .null => false
  | .bool b => b
  | .num q => decide (q ≠ 0)
  | .str s => s ≠ ""
  | .arr xs => !xs.isEmpty
  | .obj fs => !fs.isEmpty

/-- Rendering of a JSON scalar into an f-string (display model). -/
def jsonRender : Json → String
  | .null => "None"
  | .bool b => if b then "True" else "False"
  | .num q => toString q
  | .str s => s
  | .arr _ => "list"
  | .obj _ => "dict"

/-- The geography block of `format_company_profile`
(`dashboard/regulatory_utils.py` lines 321-333): the truthy legacy
fixed-region values of the profile, in source order. -/
def profile_geography_parts (data : List (String × Json)) : List (String × Json) :=
  let geo := dgetD data "geographic_exposure" (.obj [])
  regionKeyPairs.filterMap (fun p =>
    match jget geo p.2 with
    | some v => if jsonTruthy v then some (p.1, v) else none
    | none => none)

/-- The `geography` string assembled by `format_company_profile`. -/
def profile_geography (data : List (String × Json)) : String :=
  let parts := (profile_geography_parts data).map
    (fun p => p.1 ++ ": " ++ jsonRender p.2 ++ "%")
  if parts.isEmpty then "Not disclosed" else String.intercalate ", " parts

/-! ## Document ingestion dispatcher

`parse_any_format` from `dashboard/regulatory_utils.py` (lines
133-167).  The three format-specific extractors (PDF, XML, HTML) are
taken as parameters: the claims under verification never reach them.
`base64.b64decode` (default `validate=False`: characters outside the
alphabet are discarded, a filtered length that is not a multiple of
four raises `binascii.Error`) and `bytes.decode` are modelled below;
any raised error is caught by the function's `except` and yields `""`. -/

def b64CharVal (c : Char) : Option Nat :=
  if 65 ≤ c.toNat && c.toNat ≤ 90 then some (c.toNat - 65)
  else if 97 ≤ c.toNat && c.toNat ≤ 122 then some (c.toNat - 97 + 26)
  else if 48 ≤ c.toNat && c.toNat ≤ 57 then some (c.toNat - 48 + 52)
  else if c == '+' then some 62
  else if c == '/' then some 63
  else none

def b64Filtered (s : String) : List Char :=
  s.data.filter (fun c => (b64CharVal c).isSome || c == '=')

/-- Decode filtered base64 characters, four at a time. -/
def b64Groups : List Char → Option (List Nat)
  | [] => some []
  | a :: b :: c :: d :: rest =>
    match b64CharVal a, b64CharVal b with
    | some va, some vb =>
      if c == '=' then
        if d == '=' && rest.isEmpty then some [va * 4 + vb / 16] else none
      else
        match b64CharVal c with
        | some vc =>
          if d == '=' then
            if rest.isEmpty then some [va * 4 + vb / 16, (vb % 16) * 16 + vc / 4]
            else none
          else
            match b64CharVal d with
            | some vd =>
              match b64Groups rest with
              | some bs =>
                some ([va * 4 + vb / 16, (vb % 16) * 16 + vc / 4, (vc % 4) * 64 + vd] ++ bs)
              | none => none
            | none => none
        | none => none
    | _, _ => none
  | _ => none

/-- Model of `base64.b64decode` with default validation; `none` models
`binascii.Error`. -/
def b64decode (s : String) : Option (List Nat) :=
  b64Groups (b64Filtered s)

def isContByte (b : Nat) : Bool := 128 ≤ b && b ≤ 191

/-- Strict UTF-8 decoding of a byte list; `none` models
`UnicodeDecodeError` from `bytes.decode('utf-8')`. -/
def utf8DecodeAux : Nat → List Nat → List Char → Option (List Char)
  | 0, bs, acc => if bs.isEmpty then some acc.reverse else none
  | _ + 1, [], acc => some acc.reverse
  | fuel + 1, b :: rest, acc =>
    if b < 128 then utf8DecodeAux fuel rest (Char.ofNat b :: acc)
    else if 194 ≤ b && b ≤ 223 then
      match rest with
      | b2 :: rest2 =>
        if isContByte b2 then
          utf8DecodeAux fuel rest2 (Char.ofNat ((b - 192) * 64 + (b2 - 128)) :: acc)
        else none
      | _ => none
    else if 224 ≤ b && b ≤ 239 then
      match rest with
      | b2 :: b3 :: rest3 =>
        if isContByte b2 && isContByte b3 then
          let cp := (b - 224) * 4096 + (b2 - 128) * 64 + (b3 - 128)
          if 2048 ≤ cp && !(55296 ≤ cp && cp ≤ 57343) then
            utf8DecodeAux fuel rest3 (Char.ofNat cp :: acc)
          else none
        else none
      | _ => none
    else if 240 ≤ b && b ≤ 244 then
      match rest with
      | b2 :: b3 :: b4 :: rest4 =>
        if isContByte b2 && isContByte b3 && isContByte b4 then
          let cp := (b - 240) * 262144 + (b2 - 128) * 4096 + (b3 - 128) * 64 + (b4 - 128)
          if 65536 ≤ cp && cp ≤ 1114111 then
            utf8DecodeAux fuel rest4 (Char.ofNat cp :: acc)
          else none
        else none
      | _ => none
    else none

def utf8Decode (bs : List Nat) : Option String :=
  match utf8DecodeAux (bs.length + 1) bs [] with
  | some cs => some (String.mk cs)
  | none => none

/-- Model of `bytes.decode('latin-1', errors='ignore')`: total, each
byte maps to the code point of the same value. -/
def latin1Decode (bs : List Nat) : String :=
  String.mk (bs.map Char.ofNat)

/-- `filename.lower().split('.')[-1]`. -/
def lastExt (filename : String) : String :=
  (pySplit (pyLower filename) '.').getLastD ""

def parse_any_format (pdfExtract : List Nat → String)
    (xmlExtract htmlExtract : String → String)
    (contents filename : String) : String :=
  match (pySplit contents ',').get? 1 with
  | none => ""
  | some contentString =>
    match b64decode contentString with
    | none => ""
    | some decoded =>
      let ext := lastExt filename
      if ext = "pdf" then pdfExtract decoded
      else
        let text :=
          match utf8Decode decoded with
          | some t => t
          | none => latin1Decode decoded
        if ext = "xml" then xmlExtract text
        else if ext = "html" || ext = "htm" then htmlExtract text
        else text

/-! ## LLM gateway retry loop

`call_bedrock` exists in three variants: `app/run_analysis.py` (2
attempts, inline cleaning), `extraction_mod/extract_10k_v2.py` (3
attempts, `clean_json_response` then `normalize_structure`), and
`dashboard/app.py` (2 attempts, inline cleaning).  One network attempt
is modelled by an oracle value: either the attempt raised (transport
error, throttling, bad envelope — all caught by the same `except`) or
it produced the completion text extracted from a well-formed envelope.
The loop is embedded as fuelled recursion that also counts the
attempts consumed; the retry sleeps are timing only and are dropped. -/

inductive AttemptOutcome where
  | exn : AttemptOutcome
  | text (s : String) : AttemptOutcome

/-- The shared retry skeleton: run attempt `used`, return on success,
otherwise consume one attempt and continue while fuel remains. -/
def callBedrockAux {α : Type} (attempt : Nat → Option α) :
    Nat → Nat → Option α × Nat
  | 0, used => (none, used)
  | fuel + 1, used =>
    match attempt used with
    | some a => (some a, used + 1)
    | none => callBedrockAux attempt fuel (used + 1)

namespace RunAnalysis

def MAX_WORKERS : Nat := 5

def MAX_RETRIES : Nat := 2

/-- What one attempt of `call_bedrock` (`app/run_analysis.py` lines
170-207) produces: the completion is cleaned of markdown fencing and
strictly JSON-decoded; a raised error or a decode failure both land in
the same `except Exception` handler. -/
def attemptResult (o : AttemptOutcome) : Option Json :=
  match o with
  | .exn => none
  | .text s => jsonDecode (cleanResponseRA s)

def call_bedrock (attempts : Nat → AttemptOutcome) : Option Json × Nat :=
  callBedrockAux (fun k => attemptResult (attempts k)) MAX_RETRIES 0

end RunAnalysis

namespace ExtractV2

def MAX_WORKERS : Nat := 5

def MAX_RETRIES : Nat := 3

/-- One attempt of `call_bedrock` (`extraction_mod/extract_10k_v2.py`
lines 202-251): clean, strict-decode, then `normalize_structure`.  A
decoded value that is not a dict raises `AttributeError` inside
`normalize_structure` and is caught by the generic `except`, consuming
the attempt like any other failure. -/
def attemptResult (o : AttemptOutcome) : Option (List (String × Json)) :=
  match o with
  | .exn => none
  | .text s =>
    match jsonDecode (clean_json_response s) with
    | some (.obj fs) => some (normalize_structure fs)
    | _ => none

def call_bedrock (attempts : Nat → AttemptOutcome) :
    Option (List (String × Json)) × Nat :=
  callBedrockAux (fun k => attemptResult (attempts k)) MAX_RETRIES 0

/-! ### Per-task worker and batch collection

`process_single_10k` and the collection loop of `extract_all_10k`
(`extraction_mod/extract_10k_v2.py`).  A task carries the ticker, the
text produced by `extract_text_smart`, and the gateway oracle for its
prompt.  The shared `progress` dict becomes explicit state; the
`as_completed` collection is folded in submission order (the claims
under verification concern which records and counts are produced,
which completion order does not affect). -/

structure Task10K where
  ticker : String
  text : String
  attempts : Nat → AttemptOutcome

structure Progress where
  success : Nat
  failed : Nat
deriving DecidableEq

structure Result10K where
  ticker : String
  success : Bool
  data : Option (List (String × Json))
  error : Option String

def create_error_result (ticker : String) (error : String) : Result10K :=
  { ticker := ticker, success := false, data := none, error := some error }

def process_single_10k (t : Task10K) (progress : Progress) :
    Result10K × Progress :=
  if t.text = "" then
    (create_error_result t.ticker "Empty extraction",
     { progress with failed := progress.failed + 1 })
  else
    match (call_bedrock t.attempts).1 with
    | some data =>
      ({ ticker := t.ticker, success := true, data := some data, error := none },
       { progress with success := progress.success + 1 })
    | none =>
      (create_error_result t.ticker "Bedrock failed",
       { progress with failed := progress.failed + 1 })

/-- The result-collection loop of `extract_all_10k`: every future's
result is appended and the shared progress dict is threaded through. -/
def extract_collect : List Task10K → Progress → List Result10K × Progress
  | [], p => ([], p)
  | t :: ts, p =>
    let rp := process_single_10k t p
    let rest := extract_collect ts rp.2
    (rp.1 :: rest.1, rest.2)

/-- A task on which every gateway attempt fails (and whose text
extraction succeeded, so the gateway is actually reached). -/
def taskFails (t : Task10K) : Prop :=
  t.text ≠ "" ∧ (call_bedrock t.attempts).1 = none

def taskErrors (t : Task10K) : Bool :=
  t.text = "" || (call_bedrock t.attempts).1.isNone

end ExtractV2

namespace Dashboard

def MAX_WORKERS : Nat := 50

/-- One attempt of `call_bedrock` (`dashboard/app.py` lines 97-150):
same cleaning and strict decode as `app/run_analysis.py`. -/
def attemptResult (o : AttemptOutcome) : Option Json :=
  match o with
  | .exn => none
  | .text s => jsonDecode (cleanResponseRA s)

/-- `for attempt in range(2)` — the attempt bound is the literal 2. -/
def call_bedrock (attempts : Nat → AttemptOutcome) : Option Json × Nat :=
  callBedrockAux (fun k => attemptResult (attempts k)) 2 0

structure DashTask where
  ticker : String
  attempts : Nat → AttemptOutcome

structure DashResult where
  ticker : String
  data : Json

/-- `analyze_company_regulation_pair` (`dashboard/app.py` lines
152-177): `None` when the gateway exhausts its attempts, a result
record otherwise. -/
def analyze_company_regulation_pair (t : DashTask) : Option DashResult :=
  match (call_bedrock t.attempts).1 with
  | some j => some { ticker := t.ticker, data := j }
  | none => none

/-- The collection loop of `analyze_regulation_with_bedrock`
(`dashboard/app.py` lines 230-249): `None` results are dropped, the
`completed` counter is incremented for every finished task.  Folded in
submission order. -/
def analyze_collect : List DashTask → List DashResult × Nat
  | [] => ([], 0)
  | t :: ts =>
    let rest := analyze_collect ts
    match analyze_company_regulation_pair t with
    | some r => (r :: rest.1, rest.2 + 1)
    | none => (rest.1, rest.2 + 1)

end Dashboard

/-! ## Bounded worker-pool semantics

All three batch drivers run their per-task worker through
`concurrent.futures.ThreadPoolExecutor(max_workers=MAX_WORKERS)`
(`extraction_mod/extract_10k_v2.py` lines 409-431, `dashboard/app.py`
lines 230-247).  The executor's contract is embedded as a small-step
transition system: a state holds the not-yet-started tasks, the tasks
currently executing on a worker thread, and the finished tasks; a
pending task may start only while fewer than `W` tasks are running,
and any running task may finish (success and terminal failure are both
just completion here). -/

structure PoolState (τ : Type) where
  pending : List τ
  running : List τ
  done : List τ

inductive PoolStep {τ : Type} (W : Nat) : PoolState τ → PoolState τ → Prop
  | start (t : τ) (rest run fin : List τ) :
      run.length < W →
      PoolStep W ⟨t :: rest, run, fin⟩ ⟨rest, t :: run, fin⟩
  | finish (t : τ) (pend l₁ l₂ fin : List τ) :
      PoolStep W ⟨pend, l₁ ++ t :: l₂, fin⟩ ⟨pend, l₁ ++ l₂, t :: fin⟩

/-- The executor starts with every submitted task pending. -/
def poolInit {τ : Type} (tasks : List τ) : PoolState τ :=
  ⟨tasks, [], []⟩

def PoolReachable {τ : Type} (W : Nat) (tasks : List τ) (s : PoolState τ) : Prop :=
  Relation.ReflTransGen (PoolStep W) (poolInit tasks) s

/-! ## The batch epilogue of `run_full_analysis`

`run_full_analysis` from `app/run_analysis.py` (lines 250-361).  The
result-building loop iterates companies with a pre-calculated risk
score and emits one record per (company, regulation) pair; the
statistics block then interpolates `len(results)/len(tasks)` into its
summary line (line 313), but no name `tasks` is bound anywhere in the
function, so evaluating the f-string raises `NameError` before the
output file is written.  Name resolution is modelled explicitly: the
locals in scope at the statistics block are listed from the source,
and the first unbound name referenced by the summary line raises. -/

inductive PyErr where
  | nameError (n : String)
deriving DecidableEq

structure ImpactRecord where
  ticker : String
  regulation_name : Json
  impact_score : Json
  recommendation : Json

namespace RunAnalysis

/-- `company.get('ticker')` followed by the loop's falsy test. -/
def companyTicker (c : List (String × Json)) : Option String :=
  match dget c "ticker" with
  | some (.str t) => if t = "" then none else some t
  | _ => none

/-- The record built for one (company, regulation) pair from the
pre-calculated risk data (`app/run_analysis.py` lines 290-303). -/
def mkRecord (ticker : String) (riskData : List (String × Json))
    (regulation : List (String × Json)) : ImpactRecord :=
  { ticker := ticker,
    regulation_name := dgetD regulation "title" (.str "Unknown"),
    impact_score := dgetD riskData "overall_impact_score" (.num 0),
    recommendation := dgetD riskData "investment_recommendation" (.str "HOLD") }

/-- The result-building loop: companies without a usable ticker or
without a pre-calculated score are skipped; each kept company yields
one record per regulation. -/
def build_results (regulations : List (List (String × Json)))
    (companies : List (List (String × Json)))
    (riskScores : List (String × List (String × Json))) : List ImpactRecord :=
  companies.foldl (fun acc c =>
    match companyTicker c with
    | none => acc
    | some t =>
      match (riskScores.find? (fun p => p.1 == t)) with
      | none => acc
      | some p => acc ++ regulations.map (mkRecord t p.2)) []

/-- The local names bound in `run_full_analysis` when control reaches
the statistics block (every assignment and loop target of lines
250-306, plus the parameter). -/
def run_full_analysis_locals : List String :=
  ["sample_size", "regulations", "companies", "risk_scores",
   "results", "start_time", "elapsed_time",
   "company", "ticker", "risk_data", "company_info", "regulation", "result"]

/-- The names the summary f-string of line 313 interpolates. -/
def stats_line_names : List String := ["results", "tasks"]

/-- `run_full_analysis`: builds results, then runs the statistics and
persistence epilogue.  `Except.ok` carries the records that reach the
output file; `Except.error` models an uncaught exception. -/
def run_full_analysis (sample_size : Option Nat)
    (regulations : List (List (String × Json)))
    (companies : List (List (String × Json)))
    (riskScores : List (String × List (String × Json))) :
    Except PyErr (List ImpactRecord) :=
  let companies := match sample_size with
    | some n => companies.take n
    | none => companies
  let results := build_results regulations companies riskScores
  match stats_line_names.find? (fun n => !(run_full_analysis_locals.contains n)) with
  | some n => .error (.nameError n)
  | none => .ok results

end RunAnalysis

/-! # Theorems -/

/-- C4: the score-to-recommendation mapping of
`get_overall_recommendation` is a total, gap-free, overlap-free
partition of the score line: every score falls in the single bucket
characterised below (SELL iff score ≤ -1.5, REDUCE iff -1.5 < score ≤
-0.5, HOLD iff -0.5 < score ≤ 0.5, BUY iff 0.5 < score ≤ 1.5,
STRONG_BUY iff 1.5 < score); in particular the boundary value -1.5
satisfies exactly the SELL characterisation. -/
theorem C4_recommendation_partition (score : ℚ) :
    (get_overall_recommendation score = .SELL ↔ score ≤ -3/2) ∧
    (get_overall_recommendation score = .REDUCE ↔ -3/2 < score ∧ score ≤ -1/2) ∧
    (get_overall_recommendation score = .HOLD ↔ -1/2 < score ∧ score ≤ 1/2) ∧
    (get_overall_recommendation score = .BUY ↔ 1/2 < score ∧ score ≤ 3/2) ∧
    (get_overall_recommendation score = .STRONG_BUY ↔ 3/2 < score) := by
  unfold get_overall_recommendation
  split_ifs with h1 h2 h3 h4 <;>
    refine ⟨⟨fun hh => ?_, fun hh => ?_⟩, ⟨fun hh => ?_, fun hh => ?_⟩,
      ⟨fun hh => ?_, fun hh => ?_⟩, ⟨fun hh => ?_, fun hh => ?_⟩,
      ⟨fun hh => ?_, fun hh => ?_⟩⟩ <;>
    first
      | rfl
      | exact hh.elim
      | exact Rec.noConfusion hh
      | linarith
      | (exact ⟨by linarith, by linarith⟩)

/-- C4 witness: the boundary score -1.5 falls in the SELL bucket and
in no other. -/
theorem C4_recommendation_partition_witness :
    get_overall_recommendation (-3/2) = .SELL ∧
    ¬ get_overall_recommendation (-3/2) = .REDUCE := by
  have h := C4_recommendation_partition (-3/2)
  refine ⟨h.1.mpr le_rfl, fun hc => ?_⟩
  have := (h.2.1.mp hc).1
  linarith

/-- C5: the response-cleaning-and-decode step strips a leading
```` ```json ```` or ```` ``` ```` fence and a trailing fence, trims
whitespace, and strict-JSON-decodes: the fenced object decodes to the
object, a fence-free object decodes unchanged, and a string that is
still not JSON after fence-stripping is a terminal parse failure (the
gateway attempt result is `none`, with no further repair). -/
theorem C5_response_cleaning :
    clean_json_response "```json\n\x7b\"a\":1\x7d\n```" = "\x7b\"a\":1\x7d" ∧
    jsonDecode (clean_json_response "```json\n\x7b\"a\":1\x7d\n```") =
      some (.obj [("a", .num 1)]) ∧
    clean_json_response "\x7b\"a\":1\x7d" = "\x7b\"a\":1\x7d" ∧
    jsonDecode (clean_json_response "\x7b\"a\":1\x7d") = some (.obj [("a", .num 1)]) ∧
    clean_json_response "not json" = "not json" ∧
    jsonDecode (clean_json_response "not json") = none ∧
    ExtractV2.attemptResult (.text "not json") = none ∧
    RunAnalysis.attemptResult (.text "not json") = none :=
  ⟨rfl, rfl, rfl, rfl, rfl, rfl, rfl, rfl⟩

/-- C8: `validate_regulatory_document` rejects every text shorter than
`MIN_DOCUMENT_LENGTH` (50) characters regardless of keyword content,
and accepts every text of at least that length that contains at least
`MIN_KEYWORD_MATCHES` (1) of the configured keywords as a substring of
its lower-cased form. -/
theorem C8_validation_gate (text : String) :
    (text.data.length < MIN_DOCUMENT_LENGTH →
      validate_regulatory_document text = (false, .tooShort)) ∧
    (MIN_DOCUMENT_LENGTH ≤ text.data.length →
      (∃ kw ∈ REGULATORY_KEYWORDS, pySubstr kw (pyLower text) = true) →
      validate_regulatory_document text = (true, .validated)) := by
  constructor
  · intro hshort
    unfold validate_regulatory_document
    rw [if_pos (Or.inr hshort)]
  · intro hlen hkw
    obtain ⟨kw, hmem, hsub⟩ := hkw
    have hne : text ≠ "" := by
      intro he
      rw [he] at hlen
      simp [MIN_DOCUMENT_LENGTH] at hlen
    have hnlt : ¬ text.data.length < MIN_DOCUMENT_LENGTH := by omega
    have hpos : 0 < (REGULATORY_KEYWORDS.filter
        (fun k => pySubstr k (pyLower text))).length :=
      List.length_pos_of_mem (List.mem_filter.mpr ⟨hmem, hsub⟩)
    unfold validate_regulatory_document
    rw [if_neg (not_or.mpr ⟨hne, hnlt⟩), if_neg (by simp only [MIN_KEYWORD_MATCHES]; omega)]

set_option maxRecDepth 4000 in
/-- C8 witness: a 40-character text full of keywords is rejected as
too short; a 200-character text containing "directive" is accepted. -/
theorem C8_validation_gate_witness :
    validate_regulatory_document "A law, an act, a decree: still too short" =
      (false, .tooShort) ∧
    validate_regulatory_document ("This directive establishes a common framework for the resilience of critical entities and sets out specific obligations for member states to adopt national strategies and risk assessment plans quickly") =
      (true, .validated) :=
  ⟨(C8_validation_gate _).1 (by decide),
   (C8_validation_gate _).2 (by decide) ⟨"directive", by decide, by rfl⟩⟩

/-- C10: `get_sentiment_from_score` is total — every score gets exactly
one of the five labels (it is a function into the five-constructor
sentiment type, characterised bucket-by-bucket below).  Each configured
range is half-open `[low, high)`, so a score at the very top boundary
(3.0) or outside `[-3, 3]` matches no configured range and is
classified by the trailing fallback: `VERY_POSITIVE` when
`score ≥ 1.5`, `VERY_NEGATIVE` otherwise. -/
theorem C10_sentiment_total_fallback (score : ℚ) :
    (-3 ≤ score ∧ score < -3/2 → get_sentiment_from_score score = .VERY_NEGATIVE) ∧
    (-3/2 ≤ score ∧ score < -1/2 → get_sentiment_from_score score = .NEGATIVE) ∧
    (-1/2 ≤ score ∧ score < 1/2 → get_sentiment_from_score score = .NEUTRAL) ∧
    (1/2 ≤ score ∧ score < 3/2 → get_sentiment_from_score score = .POSITIVE) ∧
    (3/2 ≤ score ∧ score < 3 → get_sentiment_from_score score = .VERY_POSITIVE) ∧
    (3 ≤ score ∨ score < -3 →
      SENTIMENT_CONFIG.find?
        (fun c => decide (c.2.1 ≤ score) && decide (score < c.2.2)) = none ∧
      get_sentiment_from_score score =
        if 3/2 ≤ score then .VERY_POSITIVE else .VERY_NEGATIVE) := by
  refine ⟨fun h => ?_, fun h => ?_, fun h => ?_, fun h => ?_, fun h => ?_, fun h => ?_⟩
  · obtain ⟨hl, hr⟩ := h
    have e1 : decide ((-3 : ℚ) ≤ score) = true := decide_eq_true hl
    have e2 : decide (score < -3/2) = true := decide_eq_true hr
    unfold get_sentiment_from_score SENTIMENT_CONFIG
    simp only [List.find?, e1, e2, Bool.true_and, Bool.and_true,
      Bool.false_and, Bool.and_false]
  · obtain ⟨hl, hr⟩ := h
    have e2 : decide (score < -3/2) = false := decide_eq_false (not_lt.mpr hl)
    have e3 : decide ((-3/2 : ℚ) ≤ score) = true := decide_eq_true hl
    have e4 : decide (score < -1/2) = true := decide_eq_true hr
    unfold get_sentiment_from_score SENTIMENT_CONFIG
    simp only [List.find?, e2, e3, e4, Bool.true_and, Bool.and_true,
      Bool.false_and, Bool.and_false]
  · obtain ⟨hl, hr⟩ := h
    have e2 : decide (score < -3/2) = false :=
      decide_eq_false (not_lt.mpr (by linarith))
    have e4 : decide (score < -1/2) = false := decide_eq_false (not_lt.mpr hl)
    have e5 : decide ((-1/2 : ℚ) ≤ score) = true := decide_eq_true hl
    have e6 : decide (score < 1/2) = true := decide_eq_true hr
    unfold get_sentiment_from_score SENTIMENT_CONFIG
    simp only [List.find?, e2, e4, e5, e6, Bool.true_and, Bool.and_true,
      Bool.false_and, Bool.and_false]
  · obtain ⟨hl, hr⟩ := h
    have e2 : decide (score < -3/2) = false :=
      decide_eq_false (not_lt.mpr (by linarith))
    have e4 : decide (score < -1/2) = false :=
      decide_eq_false (not_lt.mpr (by linarith))
    have e6 : decide (score < 1/2) = false := decide_eq_false (not_lt.mpr hl)
    have e7 : decide ((1/2 : ℚ) ≤ score) = true := decide_eq_true hl
    have e8 : decide (score < 3/2) = true := decide_eq_true hr
    unfold get_sentiment_from_score SENTIMENT_CONFIG
    simp only [List.find?, e2, e4, e6, e7, e8, Bool.true_and, Bool.and_true,
      Bool.false_and, Bool.and_false]
  · obtain ⟨hl, hr⟩ := h
    have e2 : decide (score < -3/2) = false :=
      decide_eq_false (not_lt.mpr (by linarith))
    have e4 : decide (score < -1/2) = false :=
      decide_eq_false (not_lt.mpr (by linarith))
    have e6 : decide (score < 1/2) = false :=
      decide_eq_false (not_lt.mpr (by linarith))
    have e8 : decide (score < 3/2) = false := decide_eq_false (not_lt.mpr hl)
    have e9 : decide ((3/2 : ℚ) ≤ score) = true := decide_eq_true hl
    have e10 : decide (score < 3) = true := decide_eq_true hr
    unfold get_sentiment_from_score SENTIMENT_CONFIG
    simp only [List.find?, e2, e4, e6, e8, e9, e10, Bool.true_and, Bool.and_true,
      Bool.false_and, Bool.and_false]
  · have hnone : SENTIMENT_CONFIG.find?
        (fun c => decide (c.2.1 ≤ score) && decide (score < c.2.2)) = none := by
      rcases h with h3 | hm3
      · have e2 : decide (score < -3/2) = false :=
          decide_eq_false (not_lt.mpr (by linarith))
        have e4 : decide (score < -1/2) = false :=
          decide_eq_false (not_lt.mpr (by linarith))
        have e6 : decide (score < 1/2) = false :=
          decide_eq_false (not_lt.mpr (by linarith))
        have e8 : decide (score < 3/2) = false :=
          decide_eq_false (not_lt.mpr (by linarith))
        have e10 : decide (score < 3) = false :=
          decide_eq_false (not_lt.mpr (by linarith))
        unfold SENTIMENT_CONFIG
        simp only [List.find?, e2, e4, e6, e8, e10, Bool.and_false]
      · have e1 : decide ((-3 : ℚ) ≤ score) = false :=
          decide_eq_false (not_le.mpr (by linarith))
        have e3 : decide ((-3/2 : ℚ) ≤ score) = false :=
          decide_eq_false (not_le.mpr (by linarith))
        have e5 : decide ((-1/2 : ℚ) ≤ score) = false :=
          decide_eq_false (not_le.mpr (by linarith))
        have e7 : decide ((1/2 : ℚ) ≤ score) = false :=
          decide_eq_false (not_le.mpr (by linarith))
        have e9 : decide ((3/2 : ℚ) ≤ score) = false :=
          decide_eq_false (not_le.mpr (by linarith))
        unfold SENTIMENT_CONFIG
        simp only [List.find?, e1, e3, e5, e7, e9, Bool.false_and]
    refine ⟨hnone, ?_⟩
    unfold get_sentiment_from_score
    rw [hnone]

/-- C10 witness: at the top boundary score 3.0 no configured range
matches and the fallback classifies it as `VERY_POSITIVE`. -/
theorem C10_sentiment_total_fallback_witness :
    SENTIMENT_CONFIG.find?
      (fun c => decide (c.2.1 ≤ (3 : ℚ)) && decide ((3 : ℚ) < c.2.2)) = none ∧
    get_sentiment_from_score 3 = .VERY_POSITIVE := by
  have h := (C10_sentiment_total_fallback 3).2.2.2.2.2 (Or.inl le_rfl)
  refine ⟨h.1, h.2.trans ?_⟩
  rw [if_pos]
  linarith

/-! Helper lemmas for the retry loop. -/

theorem callBedrockAux_used_le {α : Type} (attempt : Nat → Option α)
    (fuel used : Nat) :
    (callBedrockAux attempt fuel used).2 ≤ used + fuel := by
  induction fuel generalizing used with
  | zero => simp [callBedrockAux]
  | succ n ih =>
    unfold callBedrockAux
    match h : attempt used with
    | some a => simp
    | none =>
      simp only [h]
      have := ih (used + 1)
      omega

theorem callBedrockAux_congr {α : Type} (f g : Nat → Option α)
    (hfg : ∀ i, f i = g i) (fuel used : Nat) :
    callBedrockAux f fuel used = callBedrockAux g fuel used := by
  induction fuel generalizing used with
  | zero => rfl
  | succ n ih =>
    unfold callBedrockAux
    rw [hfg used]
    match g used with
    | some a => rfl
    | none => exact ih (used + 1)

theorem callBedrockAux_none {α : Type} (attempt : Nat → Option α)
    (fuel used : Nat)
    (hfail : ∀ i, used ≤ i → i < used + fuel → attempt i = none) :
    (callBedrockAux attempt fuel used).1 = none := by
  induction fuel generalizing used with
  | zero => rfl
  | succ n ih =>
    unfold callBedrockAux
    rw [hfail used (le_refl used) (by omega)]
    exact ih (used + 1) (fun i h1 h2 => hfail i (by omega) (by omega))

/-- C3: each `call_bedrock` makes at most `MAX_RETRIES` attempts
(2 in `app/run_analysis.py`, 3 in `extract_10k_v2.py`); a service
response whose completion is not decodable JSON after fence-stripping
consumes one attempt exactly like a raised transport error (replacing
such a response by a raised error changes nothing about the run); and
when every attempt fails the final value is `none` — the model returns
a value rather than raising, so a terminal gateway failure is never
batch-fatal. -/
theorem C3_gateway_retry (attempts attempts2 : Nat → AttemptOutcome) :
    (RunAnalysis.call_bedrock attempts).2 ≤ RunAnalysis.MAX_RETRIES ∧
    (ExtractV2.call_bedrock attempts).2 ≤ ExtractV2.MAX_RETRIES ∧
    (∀ k t, attempts k = .text t → jsonDecode (cleanResponseRA t) = none →
      attempts2 k = .exn → (∀ i, i ≠ k → attempts i = attempts2 i) →
      RunAnalysis.call_bedrock attempts = RunAnalysis.call_bedrock attempts2) ∧
    ((∀ i, i < RunAnalysis.MAX_RETRIES →
        RunAnalysis.attemptResult (attempts i) = none) →
      (RunAnalysis.call_bedrock attempts).1 = none) ∧
    ((∀ i, i < ExtractV2.MAX_RETRIES →
        ExtractV2.attemptResult (attempts i) = none) →
      (ExtractV2.call_bedrock attempts).1 = none) := by
  refine ⟨?_, ?_, ?_, ?_, ?_⟩
  · simpa using callBedrockAux_used_le
      (fun k => RunAnalysis.attemptResult (attempts k)) RunAnalysis.MAX_RETRIES 0
  · simpa using callBedrockAux_used_le
      (fun k => ExtractV2.attemptResult (attempts k)) ExtractV2.MAX_RETRIES 0
  · intro k t hk hdec hk2 hagree
    unfold RunAnalysis.call_bedrock
    apply callBedrockAux_congr
    intro i
    by_cases hik : i = k
    · subst hik
      rw [hk, hk2]
      unfold RunAnalysis.attemptResult
      exact hdec
    · rw [hagree i hik]
  · intro hfail
    unfold RunAnalysis.call_bedrock
    exact callBedrockAux_none _ _ 0 (fun i h1 h2 => hfail i (by omega))
  · intro hfail
    unfold ExtractV2.call_bedrock
    exact callBedrockAux_none _ _ 0 (fun i h1 h2 => hfail i (by omega))

/-- C3 witness: with every completion equal to the undecodable
`"not json"`, the run-analysis gateway consumes both attempts and
returns `none`; replacing the first bad completion by a raised error
leaves the run unchanged; the v2 gateway consumes its three attempts
and also returns `none`. -/
theorem C3_gateway_retry_witness :
    (RunAnalysis.call_bedrock (fun _ => .text "not json")).2 ≤
      RunAnalysis.MAX_RETRIES ∧
    RunAnalysis.call_bedrock (fun _ => .text "not json") =
      RunAnalysis.call_bedrock
        (fun i => if i = 0 then .exn else .text "not json") ∧
    (RunAnalysis.call_bedrock (fun _ => .text "not json")).1 = none ∧
    (ExtractV2.call_bedrock (fun _ => .text "not json")).1 = none := by
  have h := C3_gateway_retry (fun _ => .text "not json")
    (fun i => if i = 0 then .exn else .text "not json")
  refine ⟨h.1, ?_, ?_, ?_⟩
  · exact h.2.2.1 0 "not json" rfl rfl rfl
      (fun i hi => by simp [hi])
  · exact h.2.2.2.1 (fun i _ => rfl)
  · exact h.2.2.2.2 (fun i _ => rfl)

/-- The four legacy identity fields written by `normalize_structure`,
paired with the flexible-schema key each is looked up from. -/
def identityFieldPairs : List (String × String) :=
  [("company_name", "name"),
   ("trading_symbol", "ticker"),
   ("legal_domicile_country", "domicile_country"),
   ("sector_industry", "sector")]

/-- C7: `normalize_structure` preserves the decoded record's
`geographic_revenue` mapping verbatim in the canonical profile (both
at top level and as `geographic_exposure.regions`); the legacy
fixed-region revenue-share fields are never populated, so looking any
of them up in the canonical profile yields no value and the downstream
`format_company_profile` geography renders "Not disclosed" instead of
erroring; and each legacy identity field whose source alias is absent
from the input is `null` rather than an error. -/
theorem C7_normalize_structure (d : List (String × Json)) :
    dget (normalize_structure d) "geographic_revenue" =
      some (dgetD d "geographic_revenue" (.obj [])) ∧
    jget (dgetD (normalize_structure d) "geographic_exposure" (.obj []))
      "regions" = some (dgetD d "geographic_revenue" (.obj [])) ∧
    (∀ k ∈ regionKeyPairs.map (fun p => p.2),
      jget (dgetD (normalize_structure d) "geographic_exposure" (.obj []))
        k = none) ∧
    profile_geography (normalize_structure d) = "Not disclosed" ∧
    (∀ p ∈ identityFieldPairs,
      jget (dgetD d "company_info" (.obj [])) p.2 = none →
      jget (dgetD (normalize_structure d) "identity_and_jurisdiction"
        (.obj [])) p.1 = some .null) := by
  refine ⟨rfl, rfl, ?_, rfl, ?_⟩
  · intro k hk
    fin_cases hk <;> rfl
  · intro p hp
    fin_cases hp <;>
      (intro h
       show some (optJson (jget (dgetD d "company_info" (.obj [])) _)) =
         some Json.null
       rw [h]
       rfl)

/-- C7 witness: the record with `geographic_revenue` equal to the
EMEA/APAC mapping round-trips those exact keys and values, its legacy
fixed-region fields are absent (read as null downstream), and the
missing `company_info` aliases come out null. -/
theorem C7_normalize_structure_witness :
    dget (normalize_structure
        [("geographic_revenue",
          .obj [("EMEA", .num 40), ("APAC", .num 60)])])
      "geographic_revenue" =
      some (.obj [("EMEA", .num 40), ("APAC", .num 60)]) ∧
    jget (dgetD (normalize_structure
        [("geographic_revenue",
          .obj [("EMEA", .num 40), ("APAC", .num 60)])])
      "geographic_exposure" (.obj []))
      "americas_revenue_share_prct_2024" = none ∧
    profile_geography (normalize_structure
        [("geographic_revenue",
          .obj [("EMEA", .num 40), ("APAC", .num 60)])]) = "Not disclosed" ∧
    jget (dgetD (normalize_structure
        [("geographic_revenue",
          .obj [("EMEA", .num 40), ("APAC", .num 60)])])
      "identity_and_jurisdiction" (.obj [])) "company_name" =
      some .null := by
  have h := C7_normalize_structure
    [("geographic_revenue", .obj [("EMEA", .num 40), ("APAC", .num 60)])]
  refine ⟨h.1.trans (by rfl), ?_, h.2.2.2.1, ?_⟩
  · exact h.2.2.1 "americas_revenue_share_prct_2024" (by simp [regionKeyPairs])
  · exact h.2.2.2.2 ("company_name", "name") (by simp [identityFieldPairs]) rfl

set_option maxRecDepth 8000 in
/-- C9 counterexample: an uploaded file named `rules.docx` — an
extension outside the dispatched formats — with well-formed base64
content does **not** yield empty text: `parse_any_format` returns the
decoded content verbatim (the default branch treats it as plain text),
and the validation gate then accepts it, contradicting the claim that
such an upload yields empty text which the validator rejects. -/
theorem C9_counterexample :
    lastExt "rules.docx" = "docx" ∧
    ("docx" ∈ (["txt", "pdf", "xml", "html", "htm"] : List String)) = False ∧
    parse_any_format (fun _ => "") (fun s => s) (fun s => s)
      "data:application/octet-stream;base64,VGhpcyBkaXJlY3RpdmUgYXBwbGllcyB0byBhbGwgY3JlZGl0IGluc3RpdHV0aW9ucyBvcGVyYXRpbmcgaW4gdGhlIHVuaW9uLg=="
      "rules.docx" =
      "This directive applies to all credit institutions operating in the union." ∧
    ("This directive applies to all credit institutions operating in the union." =
      "") = False ∧
    validate_regulatory_document
      "This directive applies to all credit institutions operating in the union." =
      (true, .validated) := by
  refine ⟨rfl, by simp, rfl, by simp, rfl⟩

/-- C9 amended: only content that raises during decoding yields empty
text — a data string without a comma-separated payload, or a payload
that is not decodable base64 — and the validation gate rejects that
empty text; a filename whose extension is not among the dispatched
`pdf`/`xml`/`html`/`htm` is treated as plain text: `parse_any_format`
returns the base64-decoded bytes decoded as UTF-8 (falling back to
latin-1), exactly as it does for `.txt`. -/
theorem C9_amended (pdfExtract : List Nat → String)
    (xmlExtract htmlExtract : String → String) (contents filename : String) :
    ((pySplit contents ',').get? 1 = none →
      parse_any_format pdfExtract xmlExtract htmlExtract contents filename = "") ∧
    (∀ payload, (pySplit contents ',').get? 1 = some payload →
      b64decode payload = none →
      parse_any_format pdfExtract xmlExtract htmlExtract contents filename = "") ∧
    validate_regulatory_document "" = (false, .tooShort) ∧
    (∀ payload bytes text, (pySplit contents ',').get? 1 = some payload →
      b64decode payload = some bytes →
      utf8Decode bytes = some text →
      lastExt filename ∉ (["pdf", "xml", "html", "htm"] : List String) →
      parse_any_format pdfExtract xmlExtract htmlExtract contents filename =
        text) := by
  refine ⟨?_, ?_, rfl, ?_⟩
  · intro h
    unfold parse_any_format
    rw [h]
  · intro payload h1 h2
    unfold parse_any_format
    simp only [h1, h2]
  · intro payload bytes text h1 h2 h3 hext
    unfold parse_any_format
    simp only [h1, h2, h3]
    simp only [List.mem_cons, List.not_mem_nil, or_false, not_or] at hext
    obtain ⟨hpdf, hxml, hhtml, hhtm⟩ := hext
    rw [if_neg hpdf, if_neg hxml, if_neg]
    simp [hhtml, hhtm]

set_option maxRecDepth 8000 in
/-- C9 amended witness: a contents string without the data-URL comma
and one whose payload is invalid base64 both yield `""` (which the
gate rejects as too short), while the `.docx` upload returns its
decoded plain text. -/
theorem C9_amended_witness :
    parse_any_format (fun _ => "") (fun s => s) (fun s => s)
      "nocommahere" "rules.txt" = "" ∧
    parse_any_format (fun _ => "") (fun s => s) (fun s => s)
      "data:text/plain;base64,AB" "rules.txt" = "" ∧
    validate_regulatory_document "" = (false, .tooShort) ∧
    parse_any_format (fun _ => "") (fun s => s) (fun s => s)
      "data:application/octet-stream;base64,VGhpcyBkaXJlY3RpdmUgYXBwbGllcyB0byBhbGwgY3JlZGl0IGluc3RpdHV0aW9ucyBvcGVyYXRpbmcgaW4gdGhlIHVuaW9uLg=="
      "rules.docx" =
      "This directive applies to all credit institutions operating in the union." := by
  have h1 := C9_amended (fun _ => "") (fun s => s) (fun s => s)
    "nocommahere" "rules.txt"
  have h2 := C9_amended (fun _ => "") (fun s => s) (fun s => s)
    "data:text/plain;base64,AB" "rules.txt"
  have h3 := C9_amended (fun _ => "") (fun s => s) (fun s => s)
    "data:application/octet-stream;base64,VGhpcyBkaXJlY3RpdmUgYXBwbGllcyB0byBhbGwgY3JlZGl0IGluc3RpdHV0aW9ucyBvcGVyYXRpbmcgaW4gdGhlIHVuaW9uLg=="
    "rules.docx"
  refine ⟨h1.1 rfl, h2.2.1 "AB" rfl rfl, h1.2.2.1, ?_⟩
  exact h3.2.2.2 _ _ _ rfl rfl rfl (by decide)

/-- C6: under the executor semantics, every state reachable from a
batch of `N` submitted tasks with worker bound `W` has at most `W`
tasks concurrently executing; and whenever pending tasks remain and a
worker is free (in particular right after a completion, whether it was
a success or a terminal failure) a new pending task can be admitted —
the pool is fixed-size, never unbounded fan-out. -/
theorem C6_bounded_workers {τ : Type} (W : Nat) (tasks : List τ)
    (s : PoolState τ) (h : PoolReachable W tasks s) :
    s.running.length ≤ W ∧
    (s.pending ≠ [] → s.running.length < W → ∃ s2, PoolStep W s s2) := by
  constructor
  · induction h with
    | refl => simp [poolInit]
    | tail hr hstep ih =>
      cases hstep with
      | start t rest run fin hlt => simpa using hlt
      | finish t pend l₁ l₂ fin =>
        simp only [List.length_append, List.length_cons] at ih ⊢
        omega
  · intro hpend hfree
    obtain ⟨pend, run, fin⟩ := s
    match pend, hpend with
    | t :: rest, _ =>
      exact ⟨_, PoolStep.start t rest run fin hfree⟩

/-- C6 witness: with the extractor's worker bound (5) and a concrete
three-task batch, the initial state is reachable, satisfies the bound,
and admits a first task. -/
theorem C6_bounded_workers_witness :
    (poolInit ([0, 1, 2] : List Nat)).running.length ≤ ExtractV2.MAX_WORKERS ∧
    ∃ s2, PoolStep ExtractV2.MAX_WORKERS (poolInit ([0, 1, 2] : List Nat)) s2 := by
  have h := C6_bounded_workers ExtractV2.MAX_WORKERS ([0, 1, 2] : List Nat)
    (poolInit [0, 1, 2]) Relation.ReflTransGen.refl
  exact ⟨h.1, h.2 (by simp [poolInit]) (by simp [poolInit, ExtractV2.MAX_WORKERS])⟩

/-! Helper lemmas for the batch collection fold. -/

theorem process_single_record_indep (t : ExtractV2.Task10K)
    (p q : ExtractV2.Progress) :
    (ExtractV2.process_single_10k t p).1 = (ExtractV2.process_single_10k t q).1 := by
  unfold ExtractV2.process_single_10k
  by_cases ht : t.text = ""
  · simp [ht]
  · simp only [ht]
    cases (ExtractV2.call_bedrock t.attempts).1 <;> simp

theorem process_single_progress (t : ExtractV2.Task10K) (p : ExtractV2.Progress) :
    (ExtractV2.process_single_10k t p).2 =
      if ExtractV2.taskErrors t then { p with failed := p.failed + 1 }
      else { p with success := p.success + 1 } := by
  unfold ExtractV2.process_single_10k ExtractV2.taskErrors
  by_cases ht : t.text = ""
  · simp [ht]
  · simp only [ht]
    cases hc : (ExtractV2.call_bedrock t.attempts).1 <;> simp [hc]

theorem extract_collect_length (ts : List ExtractV2.Task10K)
    (p : ExtractV2.Progress) :
    (ExtractV2.extract_collect ts p).1.length = ts.length := by
  induction ts generalizing p with
  | nil => rfl
  | cons t ts ih => simp [ExtractV2.extract_collect, ih]

theorem extract_collect_get? (ts : List ExtractV2.Task10K)
    (p : ExtractV2.Progress) (i : Nat) (t : ExtractV2.Task10K)
    (hget : ts[i]? = some t) :
    (ExtractV2.extract_collect ts p).1[i]? =
      some ((ExtractV2.process_single_10k t ⟨0, 0⟩).1) := by
  induction ts generalizing p i with
  | nil => simp at hget
  | cons t2 ts ih =>
    match i with
    | 0 =>
      simp at hget
      subst hget
      simp [ExtractV2.extract_collect]
      exact process_single_record_indep t2 p ⟨0, 0⟩
    | i + 1 =>
      simp at hget
      simpa [ExtractV2.extract_collect] using
        ih ((ExtractV2.process_single_10k t2 p).2) i hget

theorem extract_collect_counts (ts : List ExtractV2.Task10K)
    (p : ExtractV2.Progress) :
    (ExtractV2.extract_collect ts p).2.failed =
      p.failed + (ts.filter ExtractV2.taskErrors).length ∧
    (ExtractV2.extract_collect ts p).2.success =
      p.success + (ts.filter (fun t => !ExtractV2.taskErrors t)).length := by
  induction ts generalizing p with
  | nil => simp [ExtractV2.extract_collect]
  | cons t ts ih =>
    have hp := process_single_progress t p
    constructor
    · show (ExtractV2.extract_collect ts (ExtractV2.process_single_10k t p).2).2.failed = _
      rw [(ih (ExtractV2.process_single_10k t p).2).1, hp]
      by_cases he : ExtractV2.taskErrors t
      · simp [he, List.filter]
        try omega
      · simp [he, List.filter]
        try omega
    · show (ExtractV2.extract_collect ts (ExtractV2.process_single_10k t p).2).2.success = _
      rw [(ih (ExtractV2.process_single_10k t p).2).2, hp]
      by_cases he : ExtractV2.taskErrors t
      · simp [he, List.filter]
        try omega
      · simp [he, List.filter]
        try omega

theorem analyze_collect_eq (ds : List Dashboard.DashTask) :
    Dashboard.analyze_collect ds =
      (ds.filterMap Dashboard.analyze_company_regulation_pair, ds.length) := by
  induction ds with
  | nil => rfl
  | cons d ds ih =>
    unfold Dashboard.analyze_collect
    rw [ih]
    cases hd : Dashboard.analyze_company_regulation_pair d <;>
      simp [List.filterMap_cons, hd]

/-- C1: failure isolation in the batch.  Every submitted task yields
exactly one collected record (the worker is a total function — it
returns a failure record instead of raising), a task whose gateway
attempts all fail yields a record with `success = false` and bumps the
shared failed counter by exactly one while leaving the success counter
alone, a task whose gateway succeeds yields its success record
unchanged by other tasks' failures, and the final counters equal the
number of failing resp. succeeding tasks.  In the dashboard runner the
failing worker returns `None`, which is dropped from the results while
still counting towards completion, so the other N-1 results are
collected. -/
theorem C1_failure_isolation (tasks : List ExtractV2.Task10K)
    (dtasks : List Dashboard.DashTask) :
    (ExtractV2.extract_collect tasks ⟨0, 0⟩).1.length = tasks.length ∧
    (∀ (i : Nat) t, tasks[i]? = some t →
      (ExtractV2.extract_collect tasks ⟨0, 0⟩).1[i]? =
        some ((ExtractV2.process_single_10k t ⟨0, 0⟩).1)) ∧
    (∀ t p, ExtractV2.taskFails t →
      (ExtractV2.process_single_10k t p).1.success = false ∧
      (ExtractV2.process_single_10k t p).2 = { p with failed := p.failed + 1 }) ∧
    (∀ t p d, t.text ≠ "" → (ExtractV2.call_bedrock t.attempts).1 = some d →
      (ExtractV2.process_single_10k t p).1 =
        { ticker := t.ticker, success := true, data := some d, error := none } ∧
      (ExtractV2.process_single_10k t p).2 =
        { p with success := p.success + 1 }) ∧
    (ExtractV2.extract_collect tasks ⟨0, 0⟩).2.failed =
      (tasks.filter ExtractV2.taskErrors).length ∧
    (ExtractV2.extract_collect tasks ⟨0, 0⟩).2.success =
      (tasks.filter (fun t => !ExtractV2.taskErrors t)).length ∧
    Dashboard.analyze_collect dtasks =
      (dtasks.filterMap Dashboard.analyze_company_regulation_pair,
        dtasks.length) := by
  refine ⟨extract_collect_length tasks ⟨0, 0⟩,
    fun (i : Nat) t h => extract_collect_get? tasks ⟨0, 0⟩ i t h,
    ?_, ?_,
    by simpa using (extract_collect_counts tasks ⟨0, 0⟩).1,
    by simpa using (extract_collect_counts tasks ⟨0, 0⟩).2,
    analyze_collect_eq dtasks⟩
  · intro t p hf
    obtain ⟨ht, hc⟩ := hf
    constructor
    · unfold ExtractV2.process_single_10k
      simp [ht, hc, ExtractV2.create_error_result]
    · rw [process_single_progress]
      have he : ExtractV2.taskErrors t = true := by
        unfold ExtractV2.taskErrors
        simp [ht, hc]
      simp [he]
  · intro t p d ht hd
    constructor
    · unfold ExtractV2.process_single_10k
      simp [ht, hd]
    · rw [process_single_progress]
      have he : ExtractV2.taskErrors t = false := by
        unfold ExtractV2.taskErrors
        simp [ht, hd]
      simp [he]

/-- C1 witness: in a concrete two-task batch whose second task fails
every gateway attempt, both records are collected, the failing task's
record is marked unsuccessful, its worker bumps only the failed
counter, the final counters are one success and one failure, and the
dashboard runner drops the failing task's `None` while counting its
completion. -/
theorem C1_failure_isolation_witness :
    (ExtractV2.extract_collect
      [{ ticker := "AAPL", text := "10-K text",
         attempts := fun _ => .text "\x7b\"company_info\":\x7b\"name\":\"Apple\"\x7d\x7d" },
       { ticker := "MSFT", text := "10-K text", attempts := fun _ => .exn }]
      ⟨0, 0⟩).1.length = 2 ∧
    (ExtractV2.process_single_10k
      { ticker := "MSFT", text := "10-K text", attempts := fun _ => .exn }
      ⟨0, 0⟩).1.success = false ∧
    (ExtractV2.process_single_10k
      { ticker := "MSFT", text := "10-K text", attempts := fun _ => .exn }
      ⟨1, 0⟩).2 = ⟨1, 1⟩ ∧
    (ExtractV2.extract_collect
      [{ ticker := "AAPL", text := "10-K text",
         attempts := fun _ => .text "\x7b\"company_info\":\x7b\"name\":\"Apple\"\x7d\x7d" },
       { ticker := "MSFT", text := "10-K text", attempts := fun _ => .exn }]
      ⟨0, 0⟩).2.failed = 1 ∧
    (ExtractV2.extract_collect
      [{ ticker := "AAPL", text := "10-K text",
         attempts := fun _ => .text "\x7b\"company_info\":\x7b\"name\":\"Apple\"\x7d\x7d" },
       { ticker := "MSFT", text := "10-K text", attempts := fun _ => .exn }]
      ⟨0, 0⟩).2.success = 1 ∧
    Dashboard.analyze_collect
      [{ ticker := "MSFT", attempts := fun _ => .exn }] = ([], 1) := by
  have h := C1_failure_isolation
    [{ ticker := "AAPL", text := "10-K text",
       attempts := fun _ => .text "\x7b\"company_info\":\x7b\"name\":\"Apple\"\x7d\x7d" },
     { ticker := "MSFT", text := "10-K text", attempts := fun _ => .exn }]
    [{ ticker := "MSFT", attempts := fun _ => .exn }]
  have hfails : ExtractV2.taskFails
      { ticker := "MSFT", text := "10-K text", attempts := fun _ => .exn } :=
    ⟨by decide, rfl⟩
  exact ⟨h.1, (h.2.2.1 _ ⟨0, 0⟩ hfails).1, (h.2.2.1 _ ⟨1, 0⟩ hfails).2,
    h.2.2.2.2.1.trans (by rfl), h.2.2.2.2.2.1.trans (by rfl),
    h.2.2.2.2.2.2.trans (by rfl)⟩

/-- C2: the batch epilogue of `run_full_analysis` never completes.
Its summary line (line 313 of `app/run_analysis.py`) interpolates
`len(tasks)`, but no local `tasks` exists anywhere in the function, so
evaluating the summary f-string raises `NameError` and the results are
never persisted — for every input, including the concrete batch below
that builds one result (ticker AAPL has a pre-calculated score) and
skips one company (ticker ZZZZ has none, the failed-task analogue).
This contradicts the specified behaviour that a partially-failed batch
still prints its summary and persists all successful results. -/
theorem C2_epilogue_raises_name_error :
    (∀ (sample_size : Option Nat)
      (regulations companies : List (List (String × Json)))
      (riskScores : List (String × List (String × Json))),
      RunAnalysis.run_full_analysis sample_size regulations companies
        riskScores = .error (.nameError "tasks")) ∧
    (RunAnalysis.build_results
      [[("title", .str "EU AI Act")]]
      [[("ticker", .str "AAPL")], [("ticker", .str "ZZZZ")]]
      [("AAPL", [("overall_impact_score", .num 1)])]).length = 1 ∧
    RunAnalysis.run_full_analysis none
      [[("title", .str "EU AI Act")]]
      [[("ticker", .str "AAPL")], [("ticker", .str "ZZZZ")]]
      [("AAPL", [("overall_impact_score", .num 1)])] =
      .error (.nameError "tasks") :=
  ⟨fun _ _ _ _ => rfl, rfl, rfl⟩

end RegImpact
